import Mathlib

set_option maxRecDepth 8000

/-!
Verification development for the two-stage Node.js-to-Go migration pipeline:
`migration-tools/analyze_backend.py` (the extractor) and
`migration-tools/generate_golang.py` (the synthesizer).

The extractor recovers a structural model from source text with Python
regular expressions.  The embedding below implements those concrete regex
patterns directly over `List Char`, with Python `re` semantics specialized
to each fixed pattern (leftmost non-overlapping scanning as in
`re.finditer` / `re.findall`, greedy and lazy quantifiers, ordered
alternation, `re.IGNORECASE` where the source passes it).  All texts are
taken to be ASCII, where Python's `\w` is `[A-Za-z0-9_]` and `\s` is
`[ \t\n\r\x0b\x0c]`.

File reads (`Path.read_text`) can raise; the source has no exception
handler anywhere, so a raised exception aborts the whole analysis.  Reads
are therefore modelled as `Except Unit String` values and the category
passes propagate errors exactly where the Python exception would
propagate.
-/

/-- Characters matched by Python `\w` on ASCII text. -/
def isWordChar (c : Char) : Bool := c.isAlphanum || c == '_'

/-- Characters matched by Python `\s` on ASCII text. -/
def isSpaceChar (c : Char) : Bool :=
  c == ' ' || c == '\t' || c == '\n' || c == '\r' || c == Char.ofNat 11 || c == Char.ofNat 12

/-- The single-quote character. -/
def squote : Char := Char.ofNat 39

/-- The double-quote character. -/
def dquote : Char := Char.ofNat 34

/-- Characters matched by the regex class matching either quote. -/
def isQuote (c : Char) : Bool := c == squote || c == dquote

/-- Abbreviation for turning string literals into character lists. -/
def toL (s : String) : List Char := s.toList

/-- Abbreviation for turning character lists back into strings. -/
def ofL (l : List Char) : String := String.mk l

/-- Match a literal character sequence at the head of the input. -/
def eatLit (lit : List Char) (s : List Char) : Option (List Char) :=
  if lit.isPrefixOf s then some (s.drop lit.length) else none

/-- Case-insensitive ASCII character equality (for `re.IGNORECASE`). -/
def ciEq (a b : Char) : Bool := a.toLower == b.toLower

/-- Match a literal character sequence case-insensitively. -/
def eatLitCI : List Char → List Char → Option (List Char)
  | [], s => some s
  | _, [] => none
  | a :: la, c :: s => if ciEq a c then eatLitCI la s else none

/-- Match one character equal to `c`. -/
def eatChar (c : Char) : List Char → Option (List Char)
  | [] => none
  | d :: s => if d == c then some s else none

/-- Match one character satisfying `p`. -/
def eatIf (p : Char → Bool) : List Char → Option (List Char)
  | [] => none
  | d :: s => if p d then some s else none

/-- Match a greedy run of at least one character satisfying `p` (regex `X+`
where the following regex element cannot match an `X` character, so no
backtracking into the run is possible). -/
def eatClass1 (p : Char → Bool) (s : List Char) : Option (List Char) :=
  let r := s.dropWhile p
  if r.length < s.length then some r else none

/-- Python `str.upper` on ASCII text. -/
def pyUpper (l : List Char) : List Char := l.map Char.toUpper

/-- Python `str.strip()` on ASCII text: drop whitespace from both ends. -/
def pyStrip (l : List Char) : List Char :=
  ((l.dropWhile isSpaceChar).reverse.dropWhile isSpaceChar).reverse

/-- Python `str.split(sep)` for a single-character separator: splits at every
occurrence; the empty string yields one empty piece. -/
def splitOnChar (sep : Char) : List Char → List (List Char)
  | [] => [[]]
  | c :: t =>
    if c == sep then [] :: splitOnChar sep t
    else match splitOnChar sep t with
      | [] => [[c]]
      | p :: ps => (c :: p) :: ps

/-- Python `needle in haystack` substring test. -/
def containsSub (needle : List Char) : List Char → Bool
  | [] => needle.isEmpty
  | c :: t => needle.isPrefixOf (c :: t) || containsSub needle t

/-- Python `str.replace(pat, repl)` for a nonempty pattern: replace every
non-overlapping occurrence, scanning left to right.  `fuel` bounds the
recursion; `pyReplace` supplies `s.length`, which suffices because every
step consumes at least one character. -/
def pyReplaceAux (pat repl : List Char) : Nat → List Char → List Char
  | _, [] => []
  | 0, s => s
  | fuel + 1, c :: t =>
    if pat.isPrefixOf (c :: t) then repl ++ pyReplaceAux pat repl fuel ((c :: t).drop pat.length)
    else c :: pyReplaceAux pat repl fuel t

/-- Python `str.replace` on strings (the source only uses the fixed nonempty
pattern `"Routes"`). -/
def pyReplace (s pat repl : String) : String :=
  if pat.toList.isEmpty then s
  else ofL (pyReplaceAux pat.toList repl.toList s.toList.length s.toList)

/-- One step of `re.finditer` scanning: try the matcher at each position,
left to right; on a match resume after its end (non-overlapping), on an
empty match or a failure advance one character.  `fuel` bounds the
recursion; `scanMatches` supplies `length + 1`, which suffices because
every step consumes at least one character of the input. -/
def scanAux (m : List Char → Option (α × List Char)) : Nat → List Char → List α
  | 0, _ => []
  | fuel + 1, s =>
    match m s with
    | some (a, rest) =>
      if rest.length < s.length then a :: scanAux m fuel rest
      else match s with
        | [] => [a]
        | _ :: t => a :: scanAux m fuel t
    | none =>
      match s with
      | [] => []
      | _ :: t => scanAux m fuel t

/-- All non-overlapping matches of `m` in `s`, as `re.finditer` yields them. -/
def scanMatches (m : List Char → Option (α × List Char)) (s : List Char) : List α :=
  scanAux m (s.length + 1) s

/-- The ordered method alternation `(get|post|put|delete|patch)`.  No
alternative is a prefix of another, so at most one can match at a given
position and the ordered choice is deterministic. -/
def methodAlts : List (List Char) := [toL "get", toL "post", toL "put", toL "delete", toL "patch"]

/-- Match the method alternation, returning the matched token and the rest. -/
def matchMethod (s : List Char) : Option (List Char × List Char) :=
  (methodAlts.filterMap (fun alt => (eatLit alt s).map (fun r => (alt, r)))).head?

/-- The capture group `(\w+Controller\.\w+|\w+)` of the first route pattern.

Python semantics: the first branch runs its leading greedy `\w+` from
longest to shortest.  Because `Controller` consists of word characters and
the maximal word run at the position ends at the first non-word character,
the only viable split puts `Controller` at the very end of that run,
followed by a literal dot and a nonempty word run.  If the first branch
fails the second branch captures the maximal word run (if nonempty). -/
def g3pat1 (s : List Char) : Option (List Char × List Char) :=
  let w := s.takeWhile isWordChar
  let r1 := s.dropWhile isWordChar
  let b1 : Option (List Char × List Char) :=
    if 11 ≤ w.length && (toL "Controller").isSuffixOf w then
      match r1 with
      | c :: r2 =>
        if c == '.' then
          let w2 := r2.takeWhile isWordChar
          if 1 ≤ w2.length then some (w ++ c :: w2, r2.dropWhile isWordChar) else none
        else none
      | [] => none
    else none
  match b1 with
  | some res => some res
  | none => if 1 ≤ w.length then some (w, r1) else none

/-- The capture group `(\w+)` of the second route pattern: a maximal
nonempty word run. -/
def g3pat2 (s : List Char) : Option (List Char × List Char) :=
  let w := s.takeWhile isWordChar
  if 1 ≤ w.length then some (w, s.dropWhile isWordChar) else none

/-- Lazy `.*?` followed by a capture group: try the group at the current
position first; on failure consume one non-newline character (`.` does not
match newline, `re.MULTILINE` only affects anchors) and retry. -/
def lazyThen (g : List Char → Option (List Char × List Char)) : List Char → Option (List Char × List Char)
  | [] => g []
  | c :: t =>
    match g (c :: t) with
    | some res => some res
    | none => if c == '\n' then none else lazyThen g t

/-- The match data bound by one route-pattern match: method token, path,
handler capture. -/
structure RouteMatch where
  method : List Char
  path : List Char
  handler : List Char
deriving DecidableEq, Repr

/-- Try the first route pattern
`fastify\.(get|post|put|delete|patch)\(['\"]([^'\"]+)['\"].*?(\w+Controller\.\w+|\w+)`
at the head of the input.  The quote classes and the path class
`[^'\"]+` are complementary, so the greedy path run admits no
backtracking and match-at-position is deterministic. -/
def pat1At (s : List Char) : Option (RouteMatch × List Char) := do
  let s ← eatLit (toL "fastify.") s
  let (m, s) ← matchMethod s
  let s ← eatChar '(' s
  let s ← eatIf isQuote s
  let p := s.takeWhile (fun c => !(isQuote c))
  let s := s.dropWhile (fun c => !(isQuote c))
  if p.length == 0 then none else do
  let s ← eatIf isQuote s
  let (h, rest) ← lazyThen g3pat1 s
  pure (⟨m, p, h⟩, rest)

/-- Try the second route pattern
`router\.(get|post|put|delete|patch)\(['\"]([^'\"]+)['\"].*?(\w+)`
at the head of the input. -/
def pat2At (s : List Char) : Option (RouteMatch × List Char) := do
  let s ← eatLit (toL "router.") s
  let (m, s) ← matchMethod s
  let s ← eatChar '(' s
  let s ← eatIf isQuote s
  let p := s.takeWhile (fun c => !(isQuote c))
  let s := s.dropWhile (fun c => !(isQuote c))
  if p.length == 0 then none else do
  let s ← eatIf isQuote s
  let (h, rest) ← lazyThen g3pat2 s
  pure (⟨m, p, h⟩, rest)

/-- Try the middleware-list pattern `preHandler:\s*\[(.*?)\]` at the head of
the input, returning the capture. -/
def lazyCapUntil (stop : Char) : List Char → Option (List Char × List Char)
  | [] => none
  | c :: t =>
    if c == stop then some ([], t)
    else if c == '\n' then none
    else (lazyCapUntil stop t).map (fun pr => (c :: pr.1, pr.2))

/-- Match `preHandler:\s*\[(.*?)\]` at the head of the input. -/
def preHandlerAt (s : List Char) : Option (List Char × List Char) := do
  let s ← eatLit (toL "preHandler:") s
  let s := s.dropWhile isSpaceChar
  let s ← eatChar '[' s
  lazyCapUntil ']' s

/-! ## Data model (the dataclasses of `analyze_backend.py`) -/

/-- The `Route` dataclass. -/
structure Route where
  method : String
  path : String
  handler : String
  middleware : List String
  controller : String
deriving DecidableEq, Repr

/-- The `Controller` dataclass. -/
structure Controller where
  name : String
  file : String
  functions : List String
deriving DecidableEq, Repr

/-- The `Middleware` dataclass. -/
structure Middleware where
  name : String
  file : String
  description : String
deriving DecidableEq, Repr

/-- The `Service` dataclass. -/
structure Service where
  name : String
  file : String
  functions : List String
deriving DecidableEq, Repr

/-- The `AnalysisResult` dataclass (the structural model).  `dependencies`
is a Python `dict` preserving insertion order, modelled as an association
list. -/
structure AnalysisResult where
  routes : List Route
  controllers : List Controller
  middleware : List Middleware
  services : List Service
  database_tables : List String
  dependencies : List (String × String)
deriving DecidableEq, Repr

/-! ## Route extraction (`BackendAnalyzer.analyze_routes`) -/

/-- The middleware list attached to every route of a file: if the file text
contains the substring `preHandler`, every capture of
`re.findall(r'preHandler:\s*\[(.*?)\]', content)` is split on commas and
each piece stripped; otherwise the list is empty.  In the source this list
is recomputed inside the per-match loop, but it depends only on the file
content, so it is the same for every match of the file. -/
def mwRefs (content : String) : List String :=
  if containsSub (toL "preHandler") content.toList then
    (scanMatches preHandlerAt content.toList).flatMap
      (fun cap => (splitOnChar ',' cap).map (fun p => ofL (pyStrip p)))
  else []

/-- Build the `Route` record from one pattern match of a file.  Both route
patterns bind three groups, so the `"unknown"` fallback branch of the
source (`if len(match.groups()) >= 3 else "unknown"`) is never taken. -/
def mkRoute (stem content : String) (m : RouteMatch) : Route :=
  { method := ofL (pyUpper m.method)
    path := ofL m.path
    handler := ofL m.handler
    middleware := mwRefs content
    controller := pyReplace stem "Routes" "Controller" }

/-- All routes extracted from one route file: every non-overlapping match of
the first pattern, then every non-overlapping match of the second pattern,
each yielding one `Route`. -/
def routesFromFile (stem content : String) : List Route :=
  (scanMatches pat1At content.toList ++ scanMatches pat2At content.toList).map
    (mkRoute stem content)

/-! ## Controller extraction (`BackendAnalyzer.analyze_controllers`) -/

/-- Match `export\s+async\s+function\s+(\w+)` at the head of the input. -/
def ctrlPat1At (s : List Char) : Option (List Char × List Char) := do
  let s ← eatLit (toL "export") s
  let s ← eatClass1 isSpaceChar s
  let s ← eatLit (toL "async") s
  let s ← eatClass1 isSpaceChar s
  let s ← eatLit (toL "function") s
  let s ← eatClass1 isSpaceChar s
  g3pat2 s

/-- Match `export\s+const\s+(\w+)\s*=\s*async` at the head of the input. -/
def ctrlPat2At (s : List Char) : Option (List Char × List Char) := do
  let s ← eatLit (toL "export") s
  let s ← eatClass1 isSpaceChar s
  let s ← eatLit (toL "const") s
  let s ← eatClass1 isSpaceChar s
  let (w, s) ← g3pat2 s
  let s := s.dropWhile isSpaceChar
  let s ← eatChar '=' s
  let s := s.dropWhile isSpaceChar
  let s ← eatLit (toL "async") s
  pure (w, s)

/-- Match `export\s+function\s+(\w+)` at the head of the input. -/
def ctrlPat3At (s : List Char) : Option (List Char × List Char) := do
  let s ← eatLit (toL "export") s
  let s ← eatClass1 isSpaceChar s
  let s ← eatLit (toL "function") s
  let s ← eatClass1 isSpaceChar s
  g3pat2 s

/-- The function names collected from one controller file: the three
export patterns applied in order, results concatenated, then
`list(set(functions))`.  Python set iteration order is unspecified;
`List.dedup` models it up to that order (the model keeps each distinct
name exactly once, which is the only property the pipeline relies on). -/
def ctrlFunctions (content : String) : List String :=
  ((scanMatches ctrlPat1At content.toList ++ scanMatches ctrlPat2At content.toList
      ++ scanMatches ctrlPat3At content.toList).map ofL).dedup

/-- The `Controller` record extracted from one controller file. -/
def controllerFromFile (stem content : String) : Controller :=
  { name := stem
    file := "controllers/" ++ stem ++ ".js"
    functions := ctrlFunctions content }

/-! ## Middleware extraction (`BackendAnalyzer.analyze_middleware`) -/

/-- Backtracking helper for `\s*` followed by a continuation: Python tries
the longest run of whitespace first and backtracks one character at a
time. -/
def greedyBacktrack (k : List Char → Option α) (s : List Char) : Nat → Option α
  | 0 => k s
  | n + 1 =>
    match k (s.drop (n + 1)) with
    | some r => some r
    | none => greedyBacktrack k s n

/-- Run the continuation after a greedy `\s*`, longest run first. -/
def greedySpacesThen (k : List Char → Option α) (s : List Char) : Option α :=
  greedyBacktrack k s (s.takeWhile isSpaceChar).length

/-- Capture `(.+?)\n`: the shortest nonempty run of non-newline characters
followed by a newline, i.e. the rest of the current line when it is
nonempty and newline-terminated. -/
def lazyLineCapture : List Char → Option (List Char × List Char)
  | [] => none
  | c :: t =>
    if c == '\n' then none
    else match t with
      | [] => none
      | d :: t2 =>
        if d == '\n' then some ([c], t2)
        else (lazyLineCapture (d :: t2)).map (fun pr => (c :: pr.1, pr.2))

/-- Match the description pattern `/\*\*\s*\n\s*\*\s*(.+?)\n` at the head of
the input, returning the capture. -/
def descAt (s : List Char) : Option (List Char × List Char) := do
  let s ← eatLit (toL "/**") s
  greedySpacesThen (fun s => do
    let s ← eatChar '\n' s
    let s := s.dropWhile isSpaceChar
    let s ← eatChar '*' s
    greedySpacesThen lazyLineCapture s) s

/-- Python `re.search`: the first position, scanning left to right, where
the pattern matches. -/
def searchDesc (content : String) : Option (List Char) :=
  (scanMatches descAt content.toList).head?

/-- The `Middleware` record extracted from one middleware file: the
description comes from the first block-comment line when the pattern
matches, else it is empty. -/
def middlewareFromFile (stem content : String) : Middleware :=
  { name := stem
    file := "middleware/" ++ stem ++ ".js"
    description := ofL ((searchDesc content).getD []) }

/-! ## Service extraction (`BackendAnalyzer.analyze_services`) -/

/-- Match `export\s+(?:async\s+)?function\s+(\w+)` at the head of the input
(the optional group is tried present-first, as Python does). -/
def svcPat1At (s : List Char) : Option (List Char × List Char) := do
  let s ← eatLit (toL "export") s
  let s ← eatClass1 isSpaceChar s
  let withAsync : Option (List Char × List Char) := do
    let s ← eatLit (toL "async") s
    let s ← eatClass1 isSpaceChar s
    let s ← eatLit (toL "function") s
    let s ← eatClass1 isSpaceChar s
    g3pat2 s
  match withAsync with
  | some r => some r
  | none => do
    let s ← eatLit (toL "function") s
    let s ← eatClass1 isSpaceChar s
    g3pat2 s

/-- Match `export\s+const\s+(\w+)\s*=` at the head of the input. -/
def svcPat2At (s : List Char) : Option (List Char × List Char) := do
  let s ← eatLit (toL "export") s
  let s ← eatClass1 isSpaceChar s
  let s ← eatLit (toL "const") s
  let s ← eatClass1 isSpaceChar s
  let (w, s) ← g3pat2 s
  let s := s.dropWhile isSpaceChar
  let s ← eatChar '=' s
  pure (w, s)

/-- Match `export\s+class\s+(\w+)` at the head of the input. -/
def svcPat3At (s : List Char) : Option (List Char × List Char) := do
  let s ← eatLit (toL "export") s
  let s ← eatClass1 isSpaceChar s
  let s ← eatLit (toL "class") s
  let s ← eatClass1 isSpaceChar s
  g3pat2 s

/-- The function names collected from one service file, deduplicated as in
`ctrlFunctions`. -/
def svcFunctions (content : String) : List String :=
  ((scanMatches svcPat1At content.toList ++ scanMatches svcPat2At content.toList
      ++ scanMatches svcPat3At content.toList).map ofL).dedup

/-- The `Service` record extracted from one service file. -/
def serviceFromFile (stem content : String) : Service :=
  { name := stem
    file := "services/" ++ stem ++ ".js"
    functions := svcFunctions content }

/-! ## Schema extraction (`BackendAnalyzer.analyze_database_schema`) -/

/-- Match the tail `(?:IF\s+NOT\s+EXISTS\s+)?(\w+)` with the optional group
present.  If any part fails, Python backtracks to the empty option and the
caller captures a word run directly. -/
def ineThenWord (s : List Char) : Option (List Char × List Char) := do
  let s ← eatLitCI (toL "IF") s
  let s ← eatClass1 isSpaceChar s
  let s ← eatLitCI (toL "NOT") s
  let s ← eatClass1 isSpaceChar s
  let s ← eatLitCI (toL "EXISTS") s
  let s ← eatClass1 isSpaceChar s
  g3pat2 s

/-- Match `CREATE\s+TABLE\s+(?:IF\s+NOT\s+EXISTS\s+)?(\w+)` (with
`re.IGNORECASE`) at the head of the input, returning the captured table
name. -/
def createAt (s : List Char) : Option (List Char × List Char) := do
  let s ← eatLitCI (toL "CREATE") s
  let s ← eatClass1 isSpaceChar s
  let s ← eatLitCI (toL "TABLE") s
  let s ← eatClass1 isSpaceChar s
  match ineThenWord s with
  | some r => some r
  | none => g3pat2 s

/-- All table names captured by the `CREATE TABLE` pattern in one file. -/
def findTables (content : String) : List String :=
  (scanMatches createAt content.toList).map ofL

/-- The table names collected before deduplication: the contents of the
migration files (in glob order) followed by the optional `setup.js`
content. -/
def schemaRaw (migs : List String) (setup : Option String) : List String :=
  (migs.flatMap findTables) ++ (match setup with | some c => findTables c | none => [])

/-- The deduplicated table list (`tables = list(set(tables))`; Python set
iteration order is unspecified, `List.dedup` models the result up to that
order — each distinct name is kept exactly once, which is the only
property the pipeline relies on). -/
def schemaCore (migs : List String) (setup : Option String) : List String :=
  (schemaRaw migs setup).dedup

/-! ## Minimal JSON values (for `package.json` and the intermediate artifact) -/

/-- JSON values, as Python's `json` module produces them (object member
order is insertion order, which both `json.dumps` and `json.load`
preserve). -/
inductive Json where
  | str : String → Json
  | num : Int → Json
  | bool : Bool → Json
  | null : Json
  | arr : List Json → Json
  | obj : List (String × Json) → Json

/-- Lookup of a key in a JSON object member list (Python dicts cannot hold
duplicate keys, so first-match lookup is exact). -/
def jLookup (k : String) : List (String × Json) → Option Json
  | [] => none
  | (k2, v) :: t => if k2 = k then some v else jLookup k t

/-! ## The source tree (`BackendAnalyzer`'s view of `./backend`)

Each category directory is `none` when absent, otherwise the `*.js` files
it contains, in glob order, as `(stem, read result)` pairs.  A read result
of `Except.error ()` models a file whose `read_text` raises (unreadable or
undecodable); the source never catches such an exception. -/

structure FS where
  routes : Option (List (String × Except Unit String))
  controllers : Option (List (String × Except Unit String))
  middleware : Option (List (String × Except Unit String))
  services : Option (List (String × Except Unit String))
  migrations : Option (List (Except Unit String))
  setup : Option (Except Unit String)
  packageJson : Option (Except Unit Json)

/-- The source tree with every category absent. -/
def emptyFS : FS :=
  { routes := none, controllers := none, middleware := none, services := none
    migrations := none, setup := none, packageJson := none }

/-- `BackendAnalyzer.analyze_routes`: missing directory yields the empty
list; otherwise each file is read in turn (a raised read error propagates,
aborting the pass) and its matches are appended. -/
def analyze_routes (fs : FS) : Except Unit (List Route) :=
  match fs.routes with
  | none => .ok []
  | some files =>
    files.foldlM (fun acc pr => do
      let content ← pr.2
      pure (acc ++ routesFromFile pr.1 content)) []

/-- `BackendAnalyzer.analyze_controllers`. -/
def analyze_controllers (fs : FS) : Except Unit (List Controller) :=
  match fs.controllers with
  | none => .ok []
  | some files =>
    files.foldlM (fun acc pr => do
      let content ← pr.2
      pure (acc ++ [controllerFromFile pr.1 content])) []

/-- `BackendAnalyzer.analyze_middleware`. -/
def analyze_middleware (fs : FS) : Except Unit (List Middleware) :=
  match fs.middleware with
  | none => .ok []
  | some files =>
    files.foldlM (fun acc pr => do
      let content ← pr.2
      pure (acc ++ [middlewareFromFile pr.1 content])) []

/-- `BackendAnalyzer.analyze_services`. -/
def analyze_services (fs : FS) : Except Unit (List Service) :=
  match fs.services with
  | none => .ok []
  | some files =>
    files.foldlM (fun acc pr => do
      let content ← pr.2
      pure (acc ++ [serviceFromFile pr.1 content])) []

/-- Read a list of files in order; the first raised exception
propagates. -/
def readAll : List (Except Unit String) → Except Unit (List String)
  | [] => .ok []
  | rd :: t => do
    let c ← rd
    let r ← readAll t
    pure (c :: r)

/-- `BackendAnalyzer.analyze_database_schema`: a missing migrations
directory returns the empty list at once (`setup.js` is not consulted in
that case); otherwise the migration files and then the optional `setup.js`
are scanned and the collected names are deduplicated. -/
def analyze_database_schema (fs : FS) : Except Unit (List String) :=
  match fs.migrations with
  | none => .ok []
  | some files => do
    let contents ← readAll files
    match fs.setup with
    | none => pure (schemaCore contents none)
    | some rd => do
      let c ← rd
      pure (schemaCore contents (some c))

/-- The string-valued members of the `dependencies` member of a parsed
`package.json` (`data.get("dependencies", {})`; the source's own
annotation declares the result `Dict[str, str]`). -/
def jsonDeps (j : Json) : List (String × String) :=
  match j with
  | .obj kvs =>
    match (jLookup "dependencies" kvs).getD (.obj []) with
    | .obj deps => deps.filterMap (fun kv =>
        match kv.2 with
        | .str v => some (kv.1, v)
        | _ => none)
    | _ => []
  | _ => []

/-- `BackendAnalyzer.analyze_dependencies`: a missing `package.json` yields
the empty mapping; an unreadable or unparseable one raises. -/
def analyze_dependencies (fs : FS) : Except Unit (List (String × String)) :=
  match fs.packageJson with
  | none => .ok []
  | some rd => do
    let j ← rd
    pure (jsonDeps j)

/-- `BackendAnalyzer.analyze`: the six category passes, in source order;
any raised exception propagates and aborts the whole analysis. -/
def analyze (fs : FS) : Except Unit AnalysisResult := do
  let routes ← analyze_routes fs
  let controllers ← analyze_controllers fs
  let middleware ← analyze_middleware fs
  let services ← analyze_services fs
  let tables ← analyze_database_schema fs
  let deps ← analyze_dependencies fs
  pure { routes := routes, controllers := controllers, middleware := middleware
         services := services, database_tables := tables, dependencies := deps }

/-! ## Serialization of the structural model (`BackendAnalyzer.save_analysis`)

`save_analysis` turns the dataclasses into dictionaries with
`dataclasses.asdict` (field order preserved) and assembles the
six-key `data` dictionary that is then written as JSON.  The on-disk text
encoding is excluded from the core (the spec treats file persistence as an
external collaborator); the interchange form is the mapping-of-mappings
value below, which `json.dumps`/`json.load` transport unchanged. -/

/-- `asdict` of a `Route`. -/
def encodeRoute (r : Route) : Json :=
  .obj [("method", .str r.method), ("path", .str r.path), ("handler", .str r.handler),
        ("middleware", .arr (r.middleware.map Json.str)), ("controller", .str r.controller)]

/-- `asdict` of a `Controller`. -/
def encodeController (c : Controller) : Json :=
  .obj [("name", .str c.name), ("file", .str c.file),
        ("functions", .arr (c.functions.map Json.str))]

/-- `asdict` of a `Middleware`. -/
def encodeMiddleware (m : Middleware) : Json :=
  .obj [("name", .str m.name), ("file", .str m.file), ("description", .str m.description)]

/-- `asdict` of a `Service`. -/
def encodeService (s : Service) : Json :=
  .obj [("name", .str s.name), ("file", .str s.file),
        ("functions", .arr (s.functions.map Json.str))]

/-- The `data` dictionary assembled by `save_analysis`. -/
def save_analysis (r : AnalysisResult) : Json :=
  .obj [("routes", .arr (r.routes.map encodeRoute)),
        ("controllers", .arr (r.controllers.map encodeController)),
        ("middleware", .arr (r.middleware.map encodeMiddleware)),
        ("services", .arr (r.services.map encodeService)),
        ("database_tables", .arr (r.database_tables.map Json.str)),
        ("dependencies", .obj (r.dependencies.map (fun kv => (kv.1, Json.str kv.2))))]

/-- Read a JSON string. -/
def asStr : Json → Option String
  | .str s => some s
  | _ => none

/-- Read a JSON array. -/
def asArr : Json → Option (List Json)
  | .arr l => some l
  | _ => none

/-- Decode every element of a list, in order. -/
def decodeList (f : Json → Option α) : List Json → Option (List α)
  | [] => some []
  | j :: t => do
    let a ← f j
    let r ← decodeList f t
    pure (a :: r)

/-- Modelled from the spec: the reading side of the interchange format.
The synthesizer (`GolangGenerator.__init__`) re-reads the serialized model
with `json.load`, recovering the same mapping-of-mappings; the spec
requires this sole interchange format to round-trip losslessly.  The
decoders below read each field back from the keys `save_analysis`
writes. -/
def decodeRoute (j : Json) : Option Route :=
  match j with
  | .obj kvs => do
    let method ← jLookup "method" kvs >>= asStr
    let path ← jLookup "path" kvs >>= asStr
    let handler ← jLookup "handler" kvs >>= asStr
    let mwJ ← jLookup "middleware" kvs >>= asArr
    let mw ← decodeList asStr mwJ
    let controller ← jLookup "controller" kvs >>= asStr
    pure ⟨method, path, handler, mw, controller⟩
  | _ => none

/-- Decode a serialized `Controller`. -/
def decodeController (j : Json) : Option Controller :=
  match j with
  | .obj kvs => do
    let name ← jLookup "name" kvs >>= asStr
    let file ← jLookup "file" kvs >>= asStr
    let fnsJ ← jLookup "functions" kvs >>= asArr
    let fns ← decodeList asStr fnsJ
    pure ⟨name, file, fns⟩
  | _ => none

/-- Decode a serialized `Middleware`. -/
def decodeMiddleware (j : Json) : Option Middleware :=
  match j with
  | .obj kvs => do
    let name ← jLookup "name" kvs >>= asStr
    let file ← jLookup "file" kvs >>= asStr
    let description ← jLookup "description" kvs >>= asStr
    pure ⟨name, file, description⟩
  | _ => none

/-- Decode a serialized `Service`. -/
def decodeService (j : Json) : Option Service :=
  match j with
  | .obj kvs => do
    let name ← jLookup "name" kvs >>= asStr
    let file ← jLookup "file" kvs >>= asStr
    let fnsJ ← jLookup "functions" kvs >>= asArr
    let fns ← decodeList asStr fnsJ
    pure ⟨name, file, fns⟩
  | _ => none

/-- Decode the dependency mapping: every member value must be a string. -/
def decodeDeps : List (String × Json) → Option (List (String × String))
  | [] => some []
  | (k, v) :: t => do
    let s ← asStr v
    let r ← decodeDeps t
    pure ((k, s) :: r)

/-- Modelled from the spec: deserialize the intermediate JSON form written
by `save_analysis` back into an `AnalysisResult`. -/
def load_analysis (j : Json) : Option AnalysisResult :=
  match j with
  | .obj kvs => do
    let routesJ ← jLookup "routes" kvs >>= asArr
    let routes ← decodeList decodeRoute routesJ
    let ctrlJ ← jLookup "controllers" kvs >>= asArr
    let controllers ← decodeList decodeController ctrlJ
    let mwJ ← jLookup "middleware" kvs >>= asArr
    let middleware ← decodeList decodeMiddleware mwJ
    let svcJ ← jLookup "services" kvs >>= asArr
    let services ← decodeList decodeService svcJ
    let tblJ ← jLookup "database_tables" kvs >>= asArr
    let tables ← decodeList asStr tblJ
    let depsJ ← jLookup "dependencies" kvs
    match depsJ with
    | .obj depKvs => do
      let deps ← decodeDeps depKvs
      pure ⟨routes, controllers, middleware, services, tables, deps⟩
    | _ => none
  | _ => none

/-! ## The synthesizer (`generate_golang.py`)

Each `generate_*` method of `GolangGenerator` writes one or two files
under the fixed output directory `backend-go`.  The templates below are
the method bodies' literals, verbatim; where the Python code splices
`self.module_name` into a template, the Lean definition takes the module
identifier as an argument.  Console progress strings are not modelled
(the spec excludes console reporting from the core), except for the fatal
diagnostic of `main`, which claim C5 is about. -/

/-- The template emitted by `GolangGenerator.generate_go_mod` (verbatim from the source). -/
def goModContent (m : String) : String :=
  "module " ++ m ++ "\n\ngo 1.21\n\nrequire (\n\tgithub.com/gofiber/fiber/v2 v2.52.0\n\tgithub.com/golang-jwt/jwt/v5 v5.2.0\n\tgithub.com/mattn/go-sqlite3 v1.14.19\n\tgithub.com/joho/godotenv v1.5.1\n\tgolang.org/x/crypto v0.18.0\n\tgithub.com/google/uuid v1.5.0\n)\n"

/-- The template emitted by `GolangGenerator.generate_main` (verbatim from the source). -/
def mainGoContent (m : String) : String :=
  "package main\n\nimport (\n\t\"log\"\n\t\"os\"\n\t\"os/signal\"\n\t\"syscall\"\n\n\t\"" ++ m ++ "/internal/config\"\n\t\"" ++ m ++ "/internal/database\"\n\t\"" ++ m ++ "/internal/routes\"\n\t\"" ++ m ++ "/pkg/logger\"\n\n\t\"github.com/gofiber/fiber/v2\"\n\t\"github.com/gofiber/fiber/v2/middleware/cors\"\n\t\"github.com/gofiber/fiber/v2/middleware/recover\"\n)\n\nfunc main() \x7b\n\t// Load configuration\n\tcfg := config.Load()\n\t\n\t// Initialize logger\n\tlogger.Init(cfg.Server.Env)\n\t\n\t// Initialize database\n\tdb, err := database.Connect(cfg.Database.Path)\n\tif err != nil \x7b\n\t\tlog.Fatalf(\"Failed to connect to database: %v\", err)\n\t\x7d\n\tdefer db.Close()\n\t\n\t// Run migrations\n\tif err := database.RunMigrations(db); err != nil \x7b\n\t\tlog.Fatalf(\"Failed to run migrations: %v\", err)\n\t\x7d\n\t\n\t// Create Fiber app\n\tapp := fiber.New(fiber.Config\x7b\n\t\tErrorHandler: customErrorHandler,\n\t\tBodyLimit:    1 * 1024 * 1024, // 1MB\n\t\x7d)\n\t\n\t// Global middleware\n\tapp.Use(recover.New())\n\tapp.Use(cors.New(cors.Config\x7b\n\t\tAllowOrigins:     cfg.Security.AllowedOrigins,\n\t\tAllowCredentials: true,\n\t\tAllowHeaders:     \"Origin, Content-Type, Accept, Authorization, X-API-Key, X-CSRF-Token\",\n\t\tAllowMethods:     \"GET, POST, PUT, DELETE, PATCH, OPTIONS\",\n\t\x7d))\n\t\n\t// Health check\n\tapp.Get(\"/health\", func(c *fiber.Ctx) error \x7b\n\t\treturn c.JSON(fiber.Map\x7b\n\t\t\t\"status\": \"ok\",\n\t\t\t\"env\":    cfg.Server.Env,\n\t\t\x7d)\n\t\x7d)\n\t\n\t// Setup routes\n\troutes.Setup(app, db, cfg)\n\t\n\t// Graceful shutdown\n\tgo func() \x7b\n\t\tsigChan := make(chan os.Signal, 1)\n\t\tsignal.Notify(sigChan, os.Interrupt, syscall.SIGTERM)\n\t\t<-sigChan\n\t\t\n\t\tlogger.Info(\"Shutting down gracefully...\")\n\t\tapp.Shutdown()\n\t\x7d()\n\t\n\t// Start server\n\taddr := cfg.Server.Host + \":\" + cfg.Server.Port\n\tlogger.Info(\"Server starting on \" + addr)\n\t\n\tif err := app.Listen(addr); err != nil \x7b\n\t\tlog.Fatalf(\"Failed to start server: %v\", err)\n\t\x7d\n\x7d\n\nfunc customErrorHandler(c *fiber.Ctx, err error) error \x7b\n\tcode := fiber.StatusInternalServerError\n\t\n\tif e, ok := err.(*fiber.Error); ok \x7b\n\t\tcode = e.Code\n\t\x7d\n\t\n\treturn c.Status(code).JSON(fiber.Map\x7b\n\t\t\"success\": false,\n\t\t\"message\": err.Error(),\n\t\x7d)\n\x7d\n"

/-- The template emitted by `GolangGenerator.generate_config` (verbatim from the source). -/
def configGoContent : String :=
  "package config\n\nimport (\n\t\"log\"\n\t\"os\"\n\t\"strconv\"\n\t\"strings\"\n\n\t\"github.com/joho/godotenv\"\n)\n\ntype Config struct \x7b\n\tServer   ServerConfig\n\tDatabase DatabaseConfig\n\tJWT      JWTConfig\n\tSecurity SecurityConfig\n\tMediaMTX MediaMTXConfig\n\x7d\n\ntype ServerConfig struct \x7b\n\tHost string\n\tPort string\n\tEnv  string\n\x7d\n\ntype DatabaseConfig struct \x7b\n\tPath string\n\x7d\n\ntype JWTConfig struct \x7b\n\tSecret     string\n\tExpiration string\n\x7d\n\ntype SecurityConfig struct \x7b\n\tAllowedOrigins       string\n\tAPIKeySecret         string\n\tCSRFSecret           string\n\tRateLimitPublic      int\n\tRateLimitAuth        int\n\tMaxLoginAttempts     int\n\tLockoutDurationMins  int\n\x7d\n\ntype MediaMTXConfig struct \x7b\n\tAPIURL     string\n\tHLSURLInternal string\n\tHLSURLPublic   string\n\x7d\n\nfunc Load() *Config \x7b\n\t// Load .env file\n\tif err := godotenv.Load(); err != nil \x7b\n\t\tlog.Println(\"No .env file found, using environment variables\")\n\t\x7d\n\t\n\treturn &Config\x7b\n\t\tServer: ServerConfig\x7b\n\t\t\tHost: getEnv(\"HOST\", \"0.0.0.0\"),\n\t\t\tPort: getEnv(\"PORT\", \"3000\"),\n\t\t\tEnv:  getEnv(\"NODE_ENV\", \"development\"),\n\t\t\x7d,\n\t\tDatabase: DatabaseConfig\x7b\n\t\t\tPath: getEnv(\"DATABASE_PATH\", \"./data/cctv.db\"),\n\t\t\x7d,\n\t\tJWT: JWTConfig\x7b\n\t\t\tSecret:     getEnv(\"JWT_SECRET\", \"change-this-secret\"),\n\t\t\tExpiration: getEnv(\"JWT_EXPIRATION\", \"1h\"),\n\t\t\x7d,\n\t\tSecurity: SecurityConfig\x7b\n\t\t\tAllowedOrigins:      getEnv(\"ALLOWED_ORIGINS\", \"http://localhost:5173\"),\n\t\t\tAPIKeySecret:        getEnv(\"API_KEY_SECRET\", \"\"),\n\t\t\tCSRFSecret:          getEnv(\"CSRF_SECRET\", \"\"),\n\t\t\tRateLimitPublic:     getEnvInt(\"RATE_LIMIT_PUBLIC\", 100),\n\t\t\tRateLimitAuth:       getEnvInt(\"RATE_LIMIT_AUTH\", 30),\n\t\t\tMaxLoginAttempts:    getEnvInt(\"MAX_LOGIN_ATTEMPTS\", 5),\n\t\t\tLockoutDurationMins: getEnvInt(\"LOCKOUT_DURATION_MINUTES\", 30),\n\t\t\x7d,\n\t\tMediaMTX: MediaMTXConfig\x7b\n\t\t\tAPIURL:         getEnv(\"MEDIAMTX_API_URL\", \"http://localhost:9997\"),\n\t\t\tHLSURLInternal: getEnv(\"MEDIAMTX_HLS_URL_INTERNAL\", \"http://localhost:8888\"),\n\t\t\tHLSURLPublic:   getEnv(\"PUBLIC_HLS_PATH\", \"/hls\"),\n\t\t\x7d,\n\t\x7d\n\x7d\n\nfunc getEnv(key, defaultValue string) string \x7b\n\tif value := os.Getenv(key); value != \"\" \x7b\n\t\treturn value\n\t\x7d\n\treturn defaultValue\n\x7d\n\nfunc getEnvInt(key string, defaultValue int) int \x7b\n\tif value := os.Getenv(key); value != \"\" \x7b\n\t\tif intVal, err := strconv.Atoi(value); err == nil \x7b\n\t\t\treturn intVal\n\t\t\x7d\n\t\x7d\n\treturn defaultValue\n\x7d\n"

/-- The part of the `generate_database` template before the first SQL statement (package, imports, `Connect`, and the opening of `RunMigrations`), verbatim from the source. -/
def dbHead : String :=
  "package database\n\nimport (\n\t\"database/sql\"\n\t\"fmt\"\n\t\"os\"\n\t\"path/filepath\"\n\n\t_ \"github.com/mattn/go-sqlite3\"\n)\n\nfunc Connect(dbPath string) (*sql.DB, error) \x7b\n\t// Ensure directory exists\n\tdir := filepath.Dir(dbPath)\n\tif err := os.MkdirAll(dir, 0755); err != nil \x7b\n\t\treturn nil, fmt.Errorf(\"failed to create database directory: %w\", err)\n\t\x7d\n\t\n\t// Open database\n\tdb, err := sql.Open(\"sqlite3\", dbPath+\"?_foreign_keys=on&_journal_mode=WAL\")\n\tif err != nil \x7b\n\t\treturn nil, fmt.Errorf(\"failed to open database: %w\", err)\n\t\x7d\n\t\n\t// Test connection\n\tif err := db.Ping(); err != nil \x7b\n\t\treturn nil, fmt.Errorf(\"failed to ping database: %w\", err)\n\t\x7d\n\t\n\treturn db, nil\n\x7d\n\nfunc RunMigrations(db *sql.DB) error \x7b\n\t// Create tables if not exists\n\tmigrations := []string\x7b\n\t\t"

/-- The `users` migration statement of the `generate_database` template, verbatim. -/
def sqlUsers : String :=
  "CREATE TABLE IF NOT EXISTS users (\n\t\t\tid INTEGER PRIMARY KEY AUTOINCREMENT,\n\t\t\tusername TEXT UNIQUE NOT NULL,\n\t\t\tpassword_hash TEXT NOT NULL,\n\t\t\trole TEXT DEFAULT \x27admin\x27,\n\t\t\tcreated_at DATETIME DEFAULT CURRENT_TIMESTAMP\n\t\t)"

/-- The `areas` migration statement of the `generate_database` template, verbatim. -/
def sqlAreas : String :=
  "CREATE TABLE IF NOT EXISTS areas (\n\t\t\tid INTEGER PRIMARY KEY AUTOINCREMENT,\n\t\t\tname TEXT UNIQUE NOT NULL,\n\t\t\tdescription TEXT,\n\t\t\trt TEXT,\n\t\t\trw TEXT,\n\t\t\tkelurahan TEXT,\n\t\t\tkecamatan TEXT,\n\t\t\tcreated_at DATETIME DEFAULT CURRENT_TIMESTAMP\n\t\t)"

/-- The `cameras` migration statement of the `generate_database` template, verbatim. -/
def sqlCameras : String :=
  "CREATE TABLE IF NOT EXISTS cameras (\n\t\t\tid INTEGER PRIMARY KEY AUTOINCREMENT,\n\t\t\tname TEXT NOT NULL,\n\t\t\tprivate_rtsp_url TEXT NOT NULL,\n\t\t\tdescription TEXT,\n\t\t\tlocation TEXT,\n\t\t\tgroup_name TEXT,\n\t\t\tarea_id INTEGER,\n\t\t\tenabled INTEGER DEFAULT 1,\n\t\t\tstream_key TEXT,\n\t\t\tcreated_at DATETIME DEFAULT CURRENT_TIMESTAMP,\n\t\t\tupdated_at DATETIME DEFAULT CURRENT_TIMESTAMP,\n\t\t\tFOREIGN KEY (area_id) REFERENCES areas(id) ON DELETE SET NULL\n\t\t)"

/-- The `audit_logs` migration statement of the `generate_database` template, verbatim. -/
def sqlAuditLogs : String :=
  "CREATE TABLE IF NOT EXISTS audit_logs (\n\t\t\tid INTEGER PRIMARY KEY AUTOINCREMENT,\n\t\t\tuser_id INTEGER,\n\t\t\taction TEXT NOT NULL,\n\t\t\tdetails TEXT,\n\t\t\tip_address TEXT,\n\t\t\tcreated_at DATETIME DEFAULT CURRENT_TIMESTAMP,\n\t\t\tFOREIGN KEY (user_id) REFERENCES users(id) ON DELETE SET NULL\n\t\t)"

/-- The `feedbacks` migration statement of the `generate_database` template, verbatim. -/
def sqlFeedbacks : String :=
  "CREATE TABLE IF NOT EXISTS feedbacks (\n\t\t\tid INTEGER PRIMARY KEY AUTOINCREMENT,\n\t\t\tname TEXT,\n\t\t\temail TEXT,\n\t\t\tmessage TEXT NOT NULL,\n\t\t\tstatus TEXT DEFAULT \x27unread\x27,\n\t\t\tip_address TEXT,\n\t\t\tcreated_at DATETIME DEFAULT CURRENT_TIMESTAMP\n\t\t)"

/-- The part of the `generate_database` template after the last SQL statement (the loop executing the migrations), verbatim. -/
def dbTail : String :=
  ",\n\t\x7d\n\t\n\tfor _, migration := range migrations \x7b\n\t\tif _, err := db.Exec(migration); err != nil \x7b\n\t\t\treturn fmt.Errorf(\"migration failed: %w\", err)\n\t\t\x7d\n\t\x7d\n\t\n\treturn nil\n\x7d\n"

/-- The five migration statements of the `generate_database` template, in order. -/
def dbMigrationStatements : List String :=
  [sqlUsers, sqlAreas, sqlCameras, sqlAuditLogs, sqlFeedbacks]

/-- The template emitted by `GolangGenerator.generate_database` (verbatim from the source; the Go string literals holding the five migration statements are delimited by backticks, written here as their named segments). -/
def databaseGoContent : String :=
  dbHead ++ "\x60" ++ sqlUsers ++ "\x60" ++ ",\n\t\t" ++ "\x60" ++ sqlAreas ++ "\x60" ++ ",\n\t\t" ++ "\x60" ++ sqlCameras ++ "\x60" ++ ",\n\t\t" ++ "\x60" ++ sqlAuditLogs ++ "\x60" ++ ",\n\t\t" ++ "\x60" ++ sqlFeedbacks ++ "\x60" ++ dbTail

/-- The template emitted by `GolangGenerator.generate_models` (verbatim from the source). -/
def userModelContent : String :=
  "package models\n\nimport \"time\"\n\ntype User struct \x7b\n\tID           int       \x60json:\"id\" db:\"id\"\x60\n\tUsername     string    \x60json:\"username\" db:\"username\"\x60\n\tPasswordHash string    \x60json:\"-\" db:\"password_hash\"\x60\n\tRole         string    \x60json:\"role\" db:\"role\"\x60\n\tCreatedAt    time.Time \x60json:\"created_at\" db:\"created_at\"\x60\n\x7d\n\ntype LoginRequest struct \x7b\n\tUsername string \x60json:\"username\" validate:\"required\"\x60\n\tPassword string \x60json:\"password\" validate:\"required\"\x60\n\x7d\n\ntype LoginResponse struct \x7b\n\tSuccess bool   \x60json:\"success\"\x60\n\tToken   string \x60json:\"token,omitempty\"\x60\n\tMessage string \x60json:\"message,omitempty\"\x60\n\x7d\n"

/-- The template emitted by `GolangGenerator.generate_models` (verbatim from the source). -/
def cameraModelContent : String :=
  "package models\n\nimport \"time\"\n\ntype Camera struct \x7b\n\tID             int       \x60json:\"id\" db:\"id\"\x60\n\tName           string    \x60json:\"name\" db:\"name\"\x60\n\tPrivateRTSPURL string    \x60json:\"private_rtsp_url,omitempty\" db:\"private_rtsp_url\"\x60\n\tDescription    string    \x60json:\"description\" db:\"description\"\x60\n\tLocation       string    \x60json:\"location\" db:\"location\"\x60\n\tGroupName      string    \x60json:\"group_name\" db:\"group_name\"\x60\n\tAreaID         *int      \x60json:\"area_id\" db:\"area_id\"\x60\n\tEnabled        bool      \x60json:\"enabled\" db:\"enabled\"\x60\n\tStreamKey      string    \x60json:\"stream_key\" db:\"stream_key\"\x60\n\tCreatedAt      time.Time \x60json:\"created_at\" db:\"created_at\"\x60\n\tUpdatedAt      time.Time \x60json:\"updated_at\" db:\"updated_at\"\x60\n\x7d\n"

/-- The template emitted by `GolangGenerator.generate_middleware` (verbatim from the source). -/
def authMiddlewareContent : String :=
  "package middleware\n\nimport (\n\t\"strings\"\n\n\t\"github.com/gofiber/fiber/v2\"\n\t\"github.com/golang-jwt/jwt/v5\"\n)\n\ntype JWTClaims struct \x7b\n\tUserID   int    \x60json:\"user_id\"\x60\n\tUsername string \x60json:\"username\"\x60\n\tRole     string \x60json:\"role\"\x60\n\tjwt.RegisteredClaims\n\x7d\n\nfunc AuthMiddleware(secret string) fiber.Handler \x7b\n\treturn func(c *fiber.Ctx) error \x7b\n\t\t// Get token from header\n\t\tauthHeader := c.Get(\"Authorization\")\n\t\tif authHeader == \"\" \x7b\n\t\t\t// Try cookie\n\t\t\ttoken := c.Cookies(\"token\")\n\t\t\tif token == \"\" \x7b\n\t\t\t\treturn c.Status(fiber.StatusUnauthorized).JSON(fiber.Map\x7b\n\t\t\t\t\t\"success\": false,\n\t\t\t\t\t\"message\": \"Unauthorized - No token provided\",\n\t\t\t\t\x7d)\n\t\t\t\x7d\n\t\t\tauthHeader = \"Bearer \" + token\n\t\t\x7d\n\t\t\n\t\t// Extract token\n\t\tparts := strings.Split(authHeader, \" \")\n\t\tif len(parts) != 2 || parts[0] != \"Bearer\" \x7b\n\t\t\treturn c.Status(fiber.StatusUnauthorized).JSON(fiber.Map\x7b\n\t\t\t\t\"success\": false,\n\t\t\t\t\"message\": \"Invalid authorization header\",\n\t\t\t\x7d)\n\t\t\x7d\n\t\t\n\t\ttokenString := parts[1]\n\t\t\n\t\t// Parse and validate token\n\t\ttoken, err := jwt.ParseWithClaims(tokenString, &JWTClaims\x7b\x7d, func(token *jwt.Token) (interface\x7b\x7d, error) \x7b\n\t\t\treturn []byte(secret), nil\n\t\t\x7d)\n\t\t\n\t\tif err != nil || !token.Valid \x7b\n\t\t\treturn c.Status(fiber.StatusUnauthorized).JSON(fiber.Map\x7b\n\t\t\t\t\"success\": false,\n\t\t\t\t\"message\": \"Invalid or expired token\",\n\t\t\t\x7d)\n\t\t\x7d\n\t\t\n\t\t// Store claims in context\n\t\tif claims, ok := token.Claims.(*JWTClaims); ok \x7b\n\t\t\tc.Locals(\"user_id\", claims.UserID)\n\t\t\tc.Locals(\"username\", claims.Username)\n\t\t\tc.Locals(\"role\", claims.Role)\n\t\t\x7d\n\t\t\n\t\treturn c.Next()\n\t\x7d\n\x7d\n"

/-- The template emitted by `GolangGenerator.generate_handlers` (verbatim from the source). -/
def authHandlerContent (m : String) : String :=
  "package handlers\n\nimport (\n\t\"database/sql\"\n\t\"time\"\n\n\t\"" ++ m ++ "/internal/config\"\n\t\"" ++ m ++ "/internal/models\"\n\n\t\"github.com/gofiber/fiber/v2\"\n\t\"github.com/golang-jwt/jwt/v5\"\n\t\"golang.org/x/crypto/bcrypt\"\n)\n\ntype AuthHandler struct \x7b\n\tdb  *sql.DB\n\tcfg *config.Config\n\x7d\n\nfunc NewAuthHandler(db *sql.DB, cfg *config.Config) *AuthHandler \x7b\n\treturn &AuthHandler\x7bdb: db, cfg: cfg\x7d\n\x7d\n\nfunc (h *AuthHandler) Login(c *fiber.Ctx) error \x7b\n\tvar req models.LoginRequest\n\tif err := c.BodyParser(&req); err != nil \x7b\n\t\treturn c.Status(fiber.StatusBadRequest).JSON(fiber.Map\x7b\n\t\t\t\"success\": false,\n\t\t\t\"message\": \"Invalid request body\",\n\t\t\x7d)\n\t\x7d\n\t\n\t// Get user from database\n\tvar user models.User\n\terr := h.db.QueryRow(\n\t\t\"SELECT id, username, password_hash, role FROM users WHERE username = ?\",\n\t\treq.Username,\n\t).Scan(&user.ID, &user.Username, &user.PasswordHash, &user.Role)\n\t\n\tif err == sql.ErrNoRows \x7b\n\t\treturn c.Status(fiber.StatusUnauthorized).JSON(fiber.Map\x7b\n\t\t\t\"success\": false,\n\t\t\t\"message\": \"Invalid credentials\",\n\t\t\x7d)\n\t\x7d\n\t\n\tif err != nil \x7b\n\t\treturn c.Status(fiber.StatusInternalServerError).JSON(fiber.Map\x7b\n\t\t\t\"success\": false,\n\t\t\t\"message\": \"Database error\",\n\t\t\x7d)\n\t\x7d\n\t\n\t// Verify password\n\tif err := bcrypt.CompareHashAndPassword([]byte(user.PasswordHash), []byte(req.Password)); err != nil \x7b\n\t\treturn c.Status(fiber.StatusUnauthorized).JSON(fiber.Map\x7b\n\t\t\t\"success\": false,\n\t\t\t\"message\": \"Invalid credentials\",\n\t\t\x7d)\n\t\x7d\n\t\n\t// Generate JWT token\n\tclaims := jwt.MapClaims\x7b\n\t\t\"user_id\":  user.ID,\n\t\t\"username\": user.Username,\n\t\t\"role\":     user.Role,\n\t\t\"exp\":      time.Now().Add(time.Hour * 24).Unix(),\n\t\x7d\n\t\n\ttoken := jwt.NewWithClaims(jwt.SigningMethodHS256, claims)\n\ttokenString, err := token.SignedString([]byte(h.cfg.JWT.Secret))\n\tif err != nil \x7b\n\t\treturn c.Status(fiber.StatusInternalServerError).JSON(fiber.Map\x7b\n\t\t\t\"success\": false,\n\t\t\t\"message\": \"Failed to generate token\",\n\t\t\x7d)\n\t\x7d\n\t\n\t// Set cookie\n\tc.Cookie(&fiber.Cookie\x7b\n\t\tName:     \"token\",\n\t\tValue:    tokenString,\n\t\tHTTPOnly: true,\n\t\tSecure:   h.cfg.Server.Env == \"production\",\n\t\tSameSite: \"Lax\",\n\t\tMaxAge:   86400, // 24 hours\n\t\x7d)\n\t\n\treturn c.JSON(fiber.Map\x7b\n\t\t\"success\": true,\n\t\t\"token\":   tokenString,\n\t\t\"user\": fiber.Map\x7b\n\t\t\t\"id\":       user.ID,\n\t\t\t\"username\": user.Username,\n\t\t\t\"role\":     user.Role,\n\t\t\x7d,\n\t\x7d)\n\x7d\n\nfunc (h *AuthHandler) Logout(c *fiber.Ctx) error \x7b\n\tc.Cookie(&fiber.Cookie\x7b\n\t\tName:     \"token\",\n\t\tValue:    \"\",\n\t\tHTTPOnly: true,\n\t\tMaxAge:   -1,\n\t\x7d)\n\t\n\treturn c.JSON(fiber.Map\x7b\n\t\t\"success\": true,\n\t\t\"message\": \"Logged out successfully\",\n\t\x7d)\n\x7d\n\nfunc (h *AuthHandler) Verify(c *fiber.Ctx) error \x7b\n\tuserID := c.Locals(\"user_id\")\n\tusername := c.Locals(\"username\")\n\trole := c.Locals(\"role\")\n\t\n\treturn c.JSON(fiber.Map\x7b\n\t\t\"success\": true,\n\t\t\"user\": fiber.Map\x7b\n\t\t\t\"id\":       userID,\n\t\t\t\"username\": username,\n\t\t\t\"role\":     role,\n\t\t\x7d,\n\t\x7d)\n\x7d\n"

/-- The template emitted by `GolangGenerator.generate_routes` (verbatim from the source). -/
def routesGoContent (m : String) : String :=
  "package routes\n\nimport (\n\t\"database/sql\"\n\n\t\"" ++ m ++ "/internal/config\"\n\t\"" ++ m ++ "/internal/handlers\"\n\t\"" ++ m ++ "/internal/middleware\"\n\n\t\"github.com/gofiber/fiber/v2\"\n)\n\nfunc Setup(app *fiber.App, db *sql.DB, cfg *config.Config) \x7b\n\t// Initialize handlers\n\tauthHandler := handlers.NewAuthHandler(db, cfg)\n\t\n\t// API routes\n\tapi := app.Group(\"/api\")\n\t\n\t// Auth routes (public)\n\tauth := api.Group(\"/auth\")\n\tauth.Post(\"/login\", authHandler.Login)\n\tauth.Post(\"/logout\", authHandler.Logout)\n\t\n\t// Protected routes\n\tauthMiddleware := middleware.AuthMiddleware(cfg.JWT.Secret)\n\tauth.Get(\"/verify\", authMiddleware, authHandler.Verify)\n\t\n\t// TODO: Add more routes here\n\t// cameras := api.Group(\"/cameras\", authMiddleware)\n\t// areas := api.Group(\"/areas\", authMiddleware)\n\t// etc...\n\x7d\n"

/-- The template emitted by `GolangGenerator.generate_services` (verbatim from the source). -/
def loggerContent : String :=
  "package logger\n\nimport (\n\t\"log\"\n\t\"os\"\n)\n\nvar (\n\tinfoLogger  *log.Logger\n\terrorLogger *log.Logger\n)\n\nfunc Init(env string) \x7b\n\tinfoLogger = log.New(os.Stdout, \"INFO: \", log.Ldate|log.Ltime|log.Lshortfile)\n\terrorLogger = log.New(os.Stderr, \"ERROR: \", log.Ldate|log.Ltime|log.Lshortfile)\n\x7d\n\nfunc Info(v ...interface\x7b\x7d) \x7b\n\tinfoLogger.Println(v...)\n\x7d\n\nfunc Error(v ...interface\x7b\x7d) \x7b\n\terrorLogger.Println(v...)\n\x7d\n"

/-- The template emitted by `GolangGenerator.generate_dockerfile` (verbatim from the source). -/
def dockerfileContent : String :=
  "# Build stage\nFROM golang:1.21-alpine AS builder\n\nWORKDIR /app\n\n# Install dependencies\nRUN apk add --no-cache git gcc musl-dev sqlite-dev\n\n# Copy go mod files\nCOPY go.mod go.sum ./\nRUN go mod download\n\n# Copy source code\nCOPY . .\n\n# Build\nRUN CGO_ENABLED=1 GOOS=linux go build -a -installsuffix cgo -o server ./cmd/server\n\n# Runtime stage\nFROM alpine:latest\n\nRUN apk --no-cache add ca-certificates sqlite-libs\n\nWORKDIR /root/\n\n# Copy binary from builder\nCOPY --from=builder /app/server .\n\n# Copy .env if exists\nCOPY .env* ./\n\n# Expose port\nEXPOSE 3000\n\nCMD [\"./server\"]\n"

/-- The template emitted by `GolangGenerator.generate_makefile` (verbatim from the source). -/
def makefileContent : String :=
  "# Makefile for Golang CCTV Backend\n\n.PHONY: help build run test clean docker-build docker-run\n\nhelp:\n\t@echo \"Available commands:\"\n\t@echo \"  make build        - Build the application\"\n\t@echo \"  make run          - Run the application\"\n\t@echo \"  make test         - Run tests\"\n\t@echo \"  make clean        - Clean build artifacts\"\n\t@echo \"  make docker-build - Build Docker image\"\n\t@echo \"  make docker-run   - Run Docker container\"\n\nbuild:\n\tgo build -o bin/server ./cmd/server\n\nrun:\n\tgo run ./cmd/server/main.go\n\ntest:\n\tgo test -v ./...\n\nclean:\n\trm -rf bin/\n\tgo clean\n\ndocker-build:\n\tdocker build -t cctv-backend-go .\n\ndocker-run:\n\tdocker run -p 3000:3000 --env-file .env cctv-backend-go\n\ndeps:\n\tgo mod download\n\tgo mod tidy\n\nfmt:\n\tgo fmt ./...\n\nlint:\n\tgolangci-lint run\n"

/-- The generator state: the loaded analysis value and the target module
identifier (`output_dir` is the constant `backend-go`). -/
structure GolangGenerator where
  analysis : Json
  module_name : String

/-- `GolangGenerator.create_directory_structure`: the fixed directory
skeleton, independent of the model. -/
def create_directory_structure (_g : GolangGenerator) : List String :=
  ["cmd/server", "internal/config", "internal/database", "internal/models",
   "internal/middleware", "internal/handlers", "internal/routes", "internal/services",
   "internal/utils", "pkg/logger", "migrations"].map (fun d => "backend-go/" ++ d)

/-- `GolangGenerator.generate_go_mod`. -/
def generate_go_mod (g : GolangGenerator) : String × String :=
  ("backend-go/go.mod", goModContent g.module_name)

/-- `GolangGenerator.generate_main`. -/
def generate_main (g : GolangGenerator) : String × String :=
  ("backend-go/cmd/server/main.go", mainGoContent g.module_name)

/-- `GolangGenerator.generate_config`: the method references neither the
analysis nor the module name; its output is a fixed template. -/
def generate_config (_g : GolangGenerator) : String × String :=
  ("backend-go/internal/config/config.go", configGoContent)

/-- `GolangGenerator.generate_database`: the method references neither the
analysis nor the module name; its output is the fixed five-table
persistence bootstrap. -/
def generate_database (_g : GolangGenerator) : String × String :=
  ("backend-go/internal/database/database.go", databaseGoContent)

/-- `GolangGenerator.generate_models`: the method reads
`self.analysis.get("database_tables", [])` into a local that is never
used; the two model files written are fixed templates. -/
def generate_models (_g : GolangGenerator) : List (String × String) :=
  [("backend-go/internal/models/user.go", userModelContent),
   ("backend-go/internal/models/camera.go", cameraModelContent)]

/-- `GolangGenerator.generate_middleware`: a fixed template. -/
def generate_middleware (_g : GolangGenerator) : String × String :=
  ("backend-go/internal/middleware/auth.go", authMiddlewareContent)

/-- `GolangGenerator.generate_handlers`: a template depending only on the
module name. -/
def generate_handlers (g : GolangGenerator) : String × String :=
  ("backend-go/internal/handlers/auth.go", authHandlerContent g.module_name)

/-- `GolangGenerator.generate_routes`: a template depending only on the
module name. -/
def generate_routes (g : GolangGenerator) : String × String :=
  ("backend-go/internal/routes/routes.go", routesGoContent g.module_name)

/-- `GolangGenerator.generate_services`: a fixed template. -/
def generate_services (_g : GolangGenerator) : String × String :=
  ("backend-go/pkg/logger/logger.go", loggerContent)

/-- `GolangGenerator.generate_dockerfile`: a fixed template. -/
def generate_dockerfile (_g : GolangGenerator) : String × String :=
  ("backend-go/Dockerfile", dockerfileContent)

/-- `GolangGenerator.generate_makefile`: a fixed template. -/
def generate_makefile (_g : GolangGenerator) : String × String :=
  ("backend-go/Makefile", makefileContent)

/-- The directories created and files written by one synthesis run, plus
the console diagnostics claim C5 is about. -/
structure GenEffects where
  dirs : List String
  writes : List (String × String)
  messages : List String
deriving Repr

/-- `GolangGenerator.generate_all`: the directory skeleton, then every
artifact, in source order. -/
def generate_all (g : GolangGenerator) : GenEffects :=
  { dirs := create_directory_structure g
    writes := [generate_go_mod g, generate_main g, generate_config g, generate_database g]
      ++ generate_models g
      ++ [generate_middleware g, generate_handlers g, generate_routes g,
          generate_services g, generate_dockerfile g, generate_makefile g]
    messages := [] }

/-- The `main` entry point of `generate_golang.py`: the module identifier
comes from `argv[1]` when present; when no analysis artifact exists at the
fixed path `migration-tools/analysis_result.json`, the run prints the
fatal diagnostic and returns before constructing the generator, creating
no directory and writing no file.  `analysisFile` is the parsed artifact
when it exists. -/
def generatorMain (analysisFile : Option Json) (argv1 : Option String) : GenEffects :=
  let module := argv1.getD "github.com/yourusername/cctv-backend"
  match analysisFile with
  | none =>
    { dirs := [], writes := []
      messages := ["❌ Analysis file not found: migration-tools/analysis_result.json",
                   "   Run analyze_backend.py first!"] }
  | some a => generate_all { analysis := a, module_name := module }

/-! ## Concrete scenario inputs -/

/-- The route-file scenario of claim C1 (spec section 8). -/
def c1RouteFile : String := "fastify.get(\x27/areas\x27, AreaController.list)"

/-- A route file declaring two routes, only the first of which carries a
`preHandler` list (for claim C2's file-scoped over-attachment). -/
def c2RouteFile : String :=
  "fastify.get(\x27/areas\x27, \x7b preHandler: [authenticate] \x7d, AreaController.list)\nfastify.post(\x27/areas\x27, AreaController.create)"

/-- A route file whose `preHandler` list is empty (claim C10). -/
def c10RouteFile : String :=
  "fastify.get(\x27/areas\x27, \x7b preHandler: [] \x7d, AreaController.list)"

/-- A file fragment whose `preHandler` list has an empty middle item and
padded items (claim C10's verbatim split-and-strip behavior). -/
def c10Bracket : String := "preHandler: [auth , , requireAdmin]"

/-! ## Claim theorems -/

/-- Claim C1: every route file yields exactly one `Route` per
non-overlapping match, summed over the two route-pattern alternatives;
the scenario file `fastify.get('/areas', AreaController.list)` is matched
by exactly one alternative and yields exactly one Route with method GET,
path `/areas`, and handler symbol `AreaController.list`. -/
theorem c1_route_count_matches (stem content : String) :
    (routesFromFile stem content).length
      = (scanMatches pat1At content.toList).length + (scanMatches pat2At content.toList).length
    ∧ (routesFromFile stem c1RouteFile).map (fun r => (r.method, r.path, r.handler))
      = [("GET", "/areas", "AreaController.list")]
    ∧ (scanMatches pat1At c1RouteFile.toList).length = 1
    ∧ (scanMatches pat2At c1RouteFile.toList).length = 0 := by
  refine ⟨by simp [routesFromFile], ?_, by decide, by decide⟩
  simp only [routesFromFile, List.map_map, Function.comp_def, mkRoute]
  decide

/-- Claim C2: middleware association is file-scoped.  Every route of a
file carries exactly the file-level `mwRefs` list (the split-and-stripped
captures of every `preHandler: [...]` occurrence when the file contains
the `preHandler` marker); without the marker every route's list is empty.
In the concrete two-route file, the `preHandler` list written inside the
first route's options is attached to both routes. -/
theorem c2_middleware_file_scoped (stem content : String) :
    (routesFromFile stem content).all (fun r => r.middleware == mwRefs content) = true
    ∧ (containsSub (toL "preHandler") content.toList = false →
        (routesFromFile stem content).all (fun r => r.middleware == ([] : List String)) = true)
    ∧ (routesFromFile stem c2RouteFile).map Route.middleware = [["authenticate"], ["authenticate"]]
    ∧ (routesFromFile stem c1RouteFile).map Route.middleware = [[]] := by
  refine ⟨?_, fun h => ?_, ?_, ?_⟩
  · simp [routesFromFile, List.all_map, Function.comp_def, mkRoute]
  · have hd : containsSub (toL "preHandler") content.data = false := h
    have hm : mwRefs content = [] := by simp [mwRefs, hd]
    simp [routesFromFile, List.all_map, Function.comp_def, mkRoute, hm]
  · simp only [routesFromFile, List.map_map, Function.comp_def, mkRoute]
    decide
  · simp only [routesFromFile, List.map_map, Function.comp_def, mkRoute]
    decide

/-- Witness for claim C2: the marker-free scenario file yields routes
whose middleware lists are all empty. -/
theorem c2_middleware_file_scoped_witness :
    (routesFromFile "areaRoutes" c1RouteFile).all
      (fun r => r.middleware == ([] : List String)) = true :=
  (c2_middleware_file_scoped "areaRoutes" c1RouteFile).2.1 (by decide)

/-- Counterexample to claim C3: `ownerController` is not
"strip the suffix `Routes`, then append `Controller`".  The source
computes `stem.replace('Routes', 'Controller')`, which appends nothing
when the base name does not contain `Routes` (stem `misc` stays `misc`,
not `miscController`) and rewrites non-suffix occurrences (stem
`RoutesHelper` becomes `ControllerHelper`, not `RoutesHelperController`). -/
theorem c3_suffix_rule_counterexample :
    (routesFromFile "misc" c1RouteFile).map Route.controller = ["misc"]
    ∧ (routesFromFile "misc" c1RouteFile).map Route.controller ≠ ["miscController"]
    ∧ (routesFromFile "RoutesHelper" c1RouteFile).map Route.controller = ["ControllerHelper"]
    ∧ (routesFromFile "RoutesHelper" c1RouteFile).map Route.controller
      ≠ ["RoutesHelperController"] := by
  refine ⟨by decide, by decide, by decide, by decide⟩

/-- Claim C3 as amended: every extracted `Route.controller` is the
deterministic renaming `stem.replace('Routes', 'Controller')` (every
occurrence replaced), computed from the file's base name alone and
independent of which controllers were extracted; for base names that end
in `Routes` with no other occurrence this coincides with stripping the
suffix and appending `Controller`. -/
theorem c3_amended_replace_all (stem content : String) :
    (routesFromFile stem content).all
      (fun r => r.controller == pyReplace stem "Routes" "Controller") = true
    ∧ pyReplace "areaRoutes" "Routes" "Controller" = "areaController"
    ∧ pyReplace "authRoutes" "Routes" "Controller" = "authController" := by
  refine ⟨?_, by decide, by decide⟩
  simp [routesFromFile, List.all_map, Function.comp_def, mkRoute]

/-- Decoding a list of encoded values recovers the list, given a
per-element round trip. -/
theorem decodeList_roundtrip (f : Json → Option α) (enc : α → Json)
    (h : ∀ a, f (enc a) = some a) : ∀ l : List α, decodeList f (l.map enc) = some l := by
  intro l
  induction l with
  | nil => rfl
  | cons a t ih => simp [decodeList, h, ih]

/-- String lists round-trip through `Json.str`. -/
theorem decodeList_str (l : List String) : decodeList asStr (l.map Json.str) = some l :=
  decodeList_roundtrip asStr Json.str (fun _ => rfl) l

/-- A `Route` round-trips through its `asdict` form. -/
theorem decodeRoute_roundtrip (r : Route) : decodeRoute (encodeRoute r) = some r := by
  cases r
  simp [encodeRoute, decodeRoute, jLookup, asStr, asArr, decodeList_str]

/-- A `Controller` round-trips through its `asdict` form. -/
theorem decodeController_roundtrip (c : Controller) :
    decodeController (encodeController c) = some c := by
  cases c
  simp [encodeController, decodeController, jLookup, asStr, asArr, decodeList_str]

/-- A `Middleware` round-trips through its `asdict` form. -/
theorem decodeMiddleware_roundtrip (m : Middleware) :
    decodeMiddleware (encodeMiddleware m) = some m := by
  cases m
  simp [encodeMiddleware, decodeMiddleware, jLookup, asStr]

/-- A `Service` round-trips through its `asdict` form. -/
theorem decodeService_roundtrip (s : Service) : decodeService (encodeService s) = some s := by
  cases s
  simp [encodeService, decodeService, jLookup, asStr, asArr, decodeList_str]

/-- The dependency mapping round-trips through its JSON-object form. -/
theorem decodeDeps_roundtrip : ∀ l : List (String × String),
    decodeDeps (l.map (fun kv => (kv.1, Json.str kv.2))) = some l := by
  intro l
  induction l with
  | nil => rfl
  | cons kv t ih => simp [decodeDeps, asStr, ih]

/-- Claim C4: serializing a structural model to the intermediate JSON
form written by `save_analysis` and deserializing it back yields a value
equal in all six fields to the original. -/
theorem c4_save_load_roundtrip (r : AnalysisResult) :
    load_analysis (save_analysis r) = some r := by
  cases r
  simp [save_analysis, load_analysis, jLookup, asArr, decodeList_str,
    decodeList_roundtrip decodeRoute encodeRoute decodeRoute_roundtrip,
    decodeList_roundtrip decodeController encodeController decodeController_roundtrip,
    decodeList_roundtrip decodeMiddleware encodeMiddleware decodeMiddleware_roundtrip,
    decodeList_roundtrip decodeService encodeService decodeService_roundtrip,
    decodeDeps_roundtrip]

/-- Claim C5: when no intermediate analysis artifact exists at the
expected path, the synthesizer run creates no directory, writes no file,
and terminates with the fatal diagnostic instructing to run extraction
first — whatever module identifier was passed on the command line. -/
theorem c5_missing_artifact_fatal (argv1 : Option String) :
    (generatorMain none argv1).writes = []
    ∧ (generatorMain none argv1).dirs = []
    ∧ (generatorMain none argv1).messages
      = ["❌ Analysis file not found: migration-tools/analysis_result.json",
         "   Run analyze_backend.py first!"] :=
  ⟨rfl, rfl, rfl⟩

/-- Claim C6: a missing category directory (or dependency manifest)
yields the empty collection for that category without an error, each
category independently of the others; the source tree with every category
absent analyzes to the all-empty model without aborting. -/
theorem c6_missing_directory_empty (fs : FS) :
    (fs.routes = none → analyze_routes fs = .ok [])
    ∧ (fs.controllers = none → analyze_controllers fs = .ok [])
    ∧ (fs.middleware = none → analyze_middleware fs = .ok [])
    ∧ (fs.services = none → analyze_services fs = .ok [])
    ∧ (fs.migrations = none → analyze_database_schema fs = .ok [])
    ∧ (fs.packageJson = none → analyze_dependencies fs = .ok [])
    ∧ analyze emptyFS
      = .ok { routes := [], controllers := [], middleware := [], services := [],
              database_tables := [], dependencies := [] } := by
  refine ⟨fun h => ?_, fun h => ?_, fun h => ?_, fun h => ?_, fun h => ?_, fun h => ?_, rfl⟩
  · simp [analyze_routes, h]
  · simp [analyze_controllers, h]
  · simp [analyze_middleware, h]
  · simp [analyze_services, h]
  · simp [analyze_database_schema, h]
  · simp [analyze_dependencies, h]

/-- Witness for claim C6: every category of the all-absent source tree
extracts to the empty collection without an error. -/
theorem c6_missing_directory_empty_witness :
    analyze_routes emptyFS = .ok [] ∧ analyze_controllers emptyFS = .ok []
    ∧ analyze_middleware emptyFS = .ok [] ∧ analyze_services emptyFS = .ok []
    ∧ analyze_database_schema emptyFS = .ok [] ∧ analyze_dependencies emptyFS = .ok [] :=
  ⟨(c6_missing_directory_empty emptyFS).1 rfl,
   (c6_missing_directory_empty emptyFS).2.1 rfl,
   (c6_missing_directory_empty emptyFS).2.2.1 rfl,
   (c6_missing_directory_empty emptyFS).2.2.2.1 rfl,
   (c6_missing_directory_empty emptyFS).2.2.2.2.1 rfl,
   (c6_missing_directory_empty emptyFS).2.2.2.2.2.1 rfl⟩

/-- The routes directory entry for a readable scenario file. -/
def goodRouteFiles : List (String × Except Unit String) :=
  [("areaRoutes", .ok c1RouteFile)]

/-- A source tree whose routes directory holds the readable scenario file
followed by a file whose `read_text` raises. -/
def fsWithUnreadable : FS :=
  { emptyFS with routes := some (goodRouteFiles ++ [("brokenRoutes", .error ())]) }

/-- The same source tree without the unreadable file. -/
def fsReadableOnly : FS :=
  { emptyFS with routes := some goodRouteFiles }

/-- Claim C7 (the code violates it): an unreadable route file is not
skipped — its read exception propagates out of `analyze_routes` (there is
no handler anywhere in the source), aborting the whole analysis and
discarding the route already extracted from the readable file, which the
same tree without the unreadable file does produce. -/
theorem c7_unreadable_file_aborts :
    analyze_routes fsWithUnreadable = .error ()
    ∧ analyze fsWithUnreadable = .error ()
    ∧ analyze_routes fsReadableOnly
      = .ok [{ method := "GET", path := "/areas", handler := "AreaController.list",
               middleware := [], controller := "areaController" }] :=
  ⟨rfl, rfl, rfl⟩

/-- Claim C8: the persistence bootstrap, configuration, middleware, and
handler artifacts are constant functions of the model — two generators
sharing a target module identifier but holding arbitrary (for instance,
empty-schema) analyses emit identical artifacts — and the bootstrap's
migration list consists of idempotent (`CREATE TABLE IF NOT EXISTS`)
creation statements for exactly the five core tables, with no creation
statement in the surrounding template text. -/
theorem c8_fixed_artifacts (a1 a2 : Json) (m : String) :
    generate_database { analysis := a1, module_name := m }
      = generate_database { analysis := a2, module_name := m }
    ∧ generate_config { analysis := a1, module_name := m }
      = generate_config { analysis := a2, module_name := m }
    ∧ generate_middleware { analysis := a1, module_name := m }
      = generate_middleware { analysis := a2, module_name := m }
    ∧ generate_handlers { analysis := a1, module_name := m }
      = generate_handlers { analysis := a2, module_name := m }
    ∧ dbMigrationStatements.flatMap findTables
      = ["users", "areas", "cameras", "audit_logs", "feedbacks"]
    ∧ findTables dbHead = []
    ∧ findTables dbTail = []
    ∧ (toL "CREATE TABLE IF NOT EXISTS users").isPrefixOf (toL sqlUsers) = true
    ∧ (toL "CREATE TABLE IF NOT EXISTS areas").isPrefixOf (toL sqlAreas) = true
    ∧ (toL "CREATE TABLE IF NOT EXISTS cameras").isPrefixOf (toL sqlCameras) = true
    ∧ (toL "CREATE TABLE IF NOT EXISTS audit_logs").isPrefixOf (toL sqlAuditLogs) = true
    ∧ (toL "CREATE TABLE IF NOT EXISTS feedbacks").isPrefixOf (toL sqlFeedbacks) = true := by
  refine ⟨rfl, rfl, rfl, rfl, by decide, by decide, by decide,
    by decide, by decide, by decide, by decide, by decide⟩

/-- The source tree holding the given migration-file contents and
optional `setup.js` content, all readable. -/
def mkSchemaFS (migs : List String) (setup : Option String) : FS :=
  { emptyFS with migrations := some (migs.map Except.ok), setup := setup.map Except.ok }

/-- Reading a list of readable files succeeds with their contents. -/
theorem readAll_ok (l : List String) : readAll (l.map Except.ok) = Except.ok l := by
  induction l with
  | nil => rfl
  | cons a t ih =>
    simp [readAll, ih]
    rfl

/-- A migration file defining the `cameras` table. -/
def camerasMigA : String := "CREATE TABLE IF NOT EXISTS cameras (id INTEGER PRIMARY KEY, name TEXT)"

/-- A second migration file defining the same `cameras` table. -/
def camerasMigB : String := "CREATE TABLE IF NOT EXISTS cameras (id INTEGER PRIMARY KEY, area_id INTEGER)"

/-- Claim C9: the extracted table list is the deduplication of the names
collected across every migration file plus the setup file — a name
occurs in the result exactly once when it is defined anywhere, no matter
in how many files; in particular two migration files each creating
`cameras` with `IF NOT EXISTS` yield `cameras` exactly once. -/
theorem c9_schema_dedup (migs : List String) (setup : Option String) (n : String) :
    analyze_database_schema (mkSchemaFS migs setup) = .ok (schemaCore migs setup)
    ∧ (schemaCore migs setup).count n = (if n ∈ schemaRaw migs setup then 1 else 0)
    ∧ schemaCore [camerasMigA, camerasMigB] none = ["cameras"]
    ∧ (schemaCore [camerasMigA, camerasMigB] none).count "cameras" = 1 := by
  refine ⟨?_, ?_, by decide, by decide⟩
  · cases setup with
    | none => simp [analyze_database_schema, mkSchemaFS, readAll_ok]
    | some c => simp [analyze_database_schema, mkSchemaFS, readAll_ok]; rfl
  · simp [schemaCore, List.count_dedup]

/-- Claim C10: a `preHandler: []` occurrence attaches the one-element
list holding the empty string (the comma-split of the empty capture) to
every route of the file — not the empty list — and in general the
comma-split pieces are attached verbatim after whitespace stripping,
with no check that a piece is a nonempty identifier. -/
theorem c10_empty_prehandler_item (stem : String) :
    (routesFromFile stem c10RouteFile).map Route.middleware = [[""]]
    ∧ mwRefs c10RouteFile = [""]
    ∧ mwRefs c10Bracket = ["auth", "", "requireAdmin"]
    ∧ ([""] : List String) ≠ [] := by
  refine ⟨?_, by decide, by decide, by decide⟩
  simp only [routesFromFile, List.map_map, Function.comp_def, mkRoute]
  decide
